import Mathlib

/-
Verification of the distributed-launch and run-resumption orchestrator in
main_train.py (AdaptiveFrequencyFilters). The Python configuration object
with dotted keys is embedded as a Lean structure with flattened field names;
each resolution step of the source is a Lean function on that structure.
Collaborator routines that live outside main_train.py (distributed_init,
load_checkpoint, load_model_state, the default horizon constants of the
common module) are modelled from the spec where noted.
-/

namespace MainTrain

/-- Logical device handle: the CPU or a CUDA device with an index
(torch.device("cpu") / torch.device(f"cuda:i")). -/
inductive Device where
  | cpu
  | cuda (i : Int)
deriving DecidableEq, Repr

/-- best_metric values used by main_train.py: finite floats (0.0 and
checkpoint metrics, represented exactly as rationals) and math.inf. -/
inductive Metric where
  | finite (q : ℚ)
  | posInf
deriving DecidableEq

/-- The run configuration: the dotted keys of the Python opts object that
main_train.py reads or writes, flattened to structure fields. `none` in an
Option field models Python None. -/
structure Opts where
  dev_num_gpus : Int
  dev_device_id : Option Int
  dev_device : Device
  ddp_rank : Option Int
  ddp_world_size : Int
  ddp_disable : Bool
  ddp_no_spawn : Bool
  ddp_use_distributed : Bool
  ddp_device_id : Option Int
  ddp_start_rank : Int
  ddp_dist_port : Option Int
  dataset_workers : Option Int
  dataset_train_batch_size0 : Int
  dataset_val_batch_size0 : Int
  model_normalization_name : String
  scheduler_is_iteration_based : Bool
  scheduler_max_iterations : Option Int
  scheduler_max_epochs : Option Int
  stats_checkpoint_metric_max : Bool
  common_resume : Option String
  common_finetune_imagenet1k : Option String
  common_auto_resume : Bool
deriving DecidableEq, Repr

/-- main_train.py lines 232-236: `use_distributed = not getattr(opts,
"ddp.disable", False)` followed by the force-disable `if num_gpus <= 1:
use_distributed = False`. -/
def resolve_use_distributed (num_gpus : Int) (ddp_disable : Bool) : Bool :=
  let use_distributed := !ddp_disable
  if num_gpus ≤ 1 then false else use_distributed

/-- main_train.py line 246: the guard of the spawn branch,
`use_distributed and ddp_spawn and torch.cuda.is_available()`, where
`ddp_spawn = not getattr(opts, "ddp.no_spawn", False)` (line 245). -/
def spawn_condition (opts : Opts) (cuda_available : Bool) : Bool :=
  resolve_use_distributed opts.dev_num_gpus opts.ddp_disable
    && !opts.ddp_no_spawn && cuda_available

/-- main_train.py lines 248-249: `dev.device_id` is set to `ddp.device_id`
inside the spawn branch. -/
def resolve_spawn_device (opts : Opts) : Opts :=
  { opts with dev_device_id := opts.ddp_device_id }

/-- main_train.py lines 251-256: world size defaults to the GPU count when
it is the sentinel -1. -/
def resolve_spawn_world_size (opts : Opts) : Opts :=
  if opts.ddp_world_size == -1 then
    { opts with ddp_world_size := opts.dev_num_gpus }
  else opts

/-- main_train.py lines 257-258: in the spawn branch, a dataset worker
count of -1 or None becomes `n_cpus // num_gpus` (Python floor division). -/
def resolve_spawn_workers (opts : Opts) (n_cpus : Int) : Opts :=
  if opts.dataset_workers == some (-1) || opts.dataset_workers == none then
    { opts with dataset_workers := some (Int.fdiv n_cpus opts.dev_num_gpus) }
  else opts

/-- main_train.py lines 260-275: the parent records `start_rank` from the
current `ddp.rank` (default 0), resets `ddp.rank` to None, stores
`ddp.start_rank`, and stores the freshly allocated rendezvous port. -/
def resolve_spawn_rank (opts : Opts) (free_port : Int) : Opts :=
  { opts with
    ddp_rank := none
    ddp_start_rank := opts.ddp_rank.getD 0
    ddp_dist_port := some free_port }

/-- main_train.py lines 247-275: all configuration updates the parent makes
in the spawn branch before torch.multiprocessing.spawn is called. -/
def resolve_spawn_opts (opts : Opts) (n_cpus : Int) (free_port : Int) : Opts :=
  resolve_spawn_rank
    (resolve_spawn_workers (resolve_spawn_world_size (resolve_spawn_device opts)) n_cpus)
    free_port

/-- main_train.py lines 283-284: in the non-spawn branch, only the exact
sentinel -1 (not None) is replaced by the CPU count. -/
def resolve_single_workers (opts : Opts) (n_cpus : Int) : Opts :=
  if opts.dataset_workers == some (-1) then
    { opts with dataset_workers := some n_cpus }
  else opts

/-- main_train.py lines 286-287: a requested synchronized batch
normalization ("sync_batch_norm" or "sbn") is downgraded to "batch_norm"
in the non-spawn branch. -/
def resolve_single_norm (opts : Opts) : Opts :=
  if opts.model_normalization_name == "sync_batch_norm"
      || opts.model_normalization_name == "sbn" then
    { opts with model_normalization_name := "batch_norm" }
  else opts

/-- main_train.py lines 289-295: in the non-spawn branch both batch sizes
are multiplied by `max(1, num_gpus)` and `dev.device_id` is cleared. -/
def resolve_single_batch (opts : Opts) : Opts :=
  { opts with
    dataset_train_batch_size0 := opts.dataset_train_batch_size0 * max 1 opts.dev_num_gpus
    dataset_val_batch_size0 := opts.dataset_val_batch_size0 * max 1 opts.dev_num_gpus
    dev_device_id := none }

/-- main_train.py lines 283-295: all configuration updates of the
non-spawn (CPU / single GPU / legacy DataParallel) branch. -/
def resolve_single_opts (opts : Opts) (n_cpus : Int) : Opts :=
  resolve_single_batch (resolve_single_norm (resolve_single_workers opts n_cpus))

/-- The outcome of main_worker: either spawn `nprocs` copies of
distributed_worker with the resolved configuration and the recorded
start_rank (passed through kwargs), or continue in-process with the
resolved configuration. -/
inductive LaunchOutcome where
  | spawn (opts : Opts) (start_rank : Int) (nprocs : Int)
  | single (opts : Opts)
deriving DecidableEq, Repr

/-- The configuration carried by a launch outcome. -/
def LaunchOutcome.opts : LaunchOutcome → Opts
  | .spawn o _ _ => o
  | .single o => o

/-- Whether the outcome is the torch.multiprocessing.spawn path. -/
def LaunchOutcome.isSpawn : LaunchOutcome → Bool
  | .spawn _ _ _ => true
  | .single _ => false

/-- What main_worker produces: whether the invalid-rank error was logged
(lines 219-221) and the selected launch outcome. main_worker raises no
exception: it is a total function into this structure. -/
structure MainWorkerResult where
  rank_error_logged : Bool
  outcome : LaunchOutcome
deriving DecidableEq, Repr

/-- main_train.py lines 213-296 (main_worker), after argument parsing and
device setup: logs an error when `ddp.rank` is negative but continues,
resolves `ddp.use_distributed` with the force-disable rule, and selects
the spawn branch or the non-spawn branch. -/
def main_worker (opts : Opts) (n_cpus : Int) (cuda_available : Bool)
    (free_port : Int) : MainWorkerResult :=
  let node_rank := opts.ddp_rank.getD 0
  let use_distributed := resolve_use_distributed opts.dev_num_gpus opts.ddp_disable
  let opts1 : Opts := { opts with ddp_use_distributed := use_distributed }
  { rank_error_logged := decide (node_rank < 0)
    outcome :=
      if spawn_condition opts1 cuda_available then
        LaunchOutcome.spawn (resolve_spawn_opts opts1 n_cpus free_port)
          (opts1.ddp_rank.getD 0) opts1.dev_num_gpus
      else
        LaunchOutcome.single (resolve_single_opts opts1 n_cpus) }

/-- main_train.py lines 198-209: the part of distributed_worker before the
rendezvous call. Worker `i` records `dev.device_id = i` and the device
handle `cuda:i`; when `ddp.rank` is None it computes
`kwargs.get("start_rank", 0) + i` and stores it. -/
def distributed_worker_bind (i : Int) (opts : Opts) (start_rank : Option Int) : Opts :=
  let opts1 : Opts := { opts with dev_device_id := some i, dev_device := Device.cuda i }
  match opts1.ddp_rank with
  | none => { opts1 with ddp_rank := some (start_rank.getD 0 + i) }
  | some _ => opts1

/-- main_train.py lines 198-210: full distributed_worker. After binding,
`distributed_init` (utils/ddp_utils, not under src/) is called; modelled
from the spec as an abstract function `dinit` returning the node-level
rank, which overwrites `ddp.rank` (line 209). -/
def distributed_worker (i : Int) (opts : Opts) (start_rank : Option Int)
    (dinit : Opts → Int) : Opts :=
  let o := distributed_worker_bind i opts start_rank
  { o with ddp_rank := some (dinit o) }

/-- main_train.py lines 277-281: torch.multiprocessing.spawn runs the
worker body at every local index 0, ..., nprocs-1; this lists the
per-worker configurations just before their rendezvous calls. -/
def spawn_workers_bind (nprocs : Nat) (opts : Opts) (start_rank : Option Int) : List Opts :=
  (List.range nprocs).map (fun i => distributed_worker_bind (Int.ofNat i) opts start_rank)

/-- Modelled from the spec: the documented default epoch bound
DEFAULT_EPOCHS imported from the common module, which is not under src/. -/
def DEFAULT_EPOCHS : Int := 300

/-- Modelled from the spec: the documented default iteration bound
DEFAULT_ITERATIONS imported from the common module, not under src/. -/
def DEFAULT_ITERATIONS : Int := 300000

/-- Modelled from the spec: the large sentinel DEFAULT_MAX_EPOCHS for the
inactive epoch dimension, imported from the common module, not under src/. -/
def DEFAULT_MAX_EPOCHS : Int := 10000000

/-- Modelled from the spec: the large sentinel DEFAULT_MAX_ITERATIONS for
the inactive iteration dimension, imported from the common module, not
under src/. -/
def DEFAULT_MAX_ITERATIONS : Int := 10000000

/-- Resolution of a horizon bound: a missing (None) or non-positive
requested value is replaced by the documented default (main_train.py
lines 69-72 and 78-81). -/
def horizon_bound : Option Int → Int → Int
  | none, d => d
  | some v, d => if v ≤ 0 then d else v

/-- main_train.py lines 67-85: the horizon policy of main. In
iteration-based mode the iteration bound is validated (default
DEFAULT_ITERATIONS) and max_epochs is set to the sentinel
DEFAULT_MAX_EPOCHS; otherwise the epoch bound is validated (default
DEFAULT_EPOCHS) and max_iterations is set to DEFAULT_MAX_ITERATIONS. -/
def resolve_horizon (opts : Opts) : Opts :=
  if opts.scheduler_is_iteration_based then
    { opts with
      scheduler_max_iterations :=
        some (horizon_bound opts.scheduler_max_iterations DEFAULT_ITERATIONS)
      scheduler_max_epochs := some DEFAULT_MAX_EPOCHS }
  else
    { opts with
      scheduler_max_epochs :=
        some (horizon_bound opts.scheduler_max_epochs DEFAULT_EPOCHS)
      scheduler_max_iterations := some DEFAULT_MAX_ITERATIONS }

/-- Opaque handle for model weights (the core never inspects them). -/
abbrev ModelState := Nat

/-- Opaque handle for optimizer state. -/
abbrev OptimState := Nat

/-- Opaque handle for gradient-scaler state. -/
abbrev ScalerState := Nat

/-- The mutable training state main assembles before handing off to the
Trainer: model, optimizer, scaler, progress counters, best metric and the
optional EMA shadow weights. -/
structure TrainState where
  model : ModelState
  optimizer : OptimState
  gradient_scalar : ScalerState
  start_epoch : Int
  start_iteration : Int
  best_metric : Metric
  model_ema : Option ModelState
deriving DecidableEq

/-- A well-formed checkpoint as the checkpoint store exposes it: weights,
optimizer state, scaler state, optional EMA weights, progress counters
and best metric. -/
structure Checkpoint where
  model : ModelState
  optimizer : OptimState
  gradient_scalar : ScalerState
  epoch : Int
  iteration : Int
  best_metric : Metric
  model_ema : Option ModelState
deriving DecidableEq

/-- main_train.py lines 150-152: best_metric starts at `0.0` when
`stats.checkpoint_metric_max` holds and at `math.inf` otherwise. -/
def best_metric_init (checkpoint_metric_max : Bool) : Metric :=
  if checkpoint_metric_max then Metric.finite 0 else Metric.posInf

/-- Modelled from the spec: the checkpoint store's full loader
(utils/checkpoint_utils.load_checkpoint, not under src/). One checkpoint
read restores model, optimizer, scaler, start_epoch, start_iteration,
best_metric and, when EMA is enabled (an EMA shadow exists), the EMA
weights. -/
def load_checkpoint (ckpt : Checkpoint) (model_ema : Option ModelState) : TrainState :=
  { model := ckpt.model
    optimizer := ckpt.optimizer
    gradient_scalar := ckpt.gradient_scalar
    start_epoch := ckpt.epoch
    start_iteration := ckpt.iteration
    best_metric := ckpt.best_metric
    model_ema := if model_ema.isSome then ckpt.model_ema else none }

/-- Modelled from the spec: the checkpoint store's weights-only loader
(utils/checkpoint_utils.load_model_state, not under src/): loads the model
weights and, when EMA is enabled, the EMA weights. -/
def load_model_state (ckpt : Checkpoint) (model_ema : Option ModelState) :
    ModelState × Option ModelState :=
  (ckpt.model, if model_ema.isSome then ckpt.model_ema else none)

/-- main_train.py lines 150-156: the fresh-run training state before any
checkpoint is read: counters 0, best_metric from its polarity, and the
freshly constructed model/optimizer/scaler/EMA handles. -/
def fresh_train_state (opts : Opts) (model : ModelState) (optimizer : OptimState)
    (gradient_scalar : ScalerState) (model_ema : Option ModelState) : TrainState :=
  { model := model
    optimizer := optimizer
    gradient_scalar := gradient_scalar
    start_epoch := 0
    start_iteration := 0
    best_metric := best_metric_init opts.stats_checkpoint_metric_max
    model_ema := model_ema }

/-- The three recovery paths of main_train.py lines 157-178. -/
inductive RecoveryPath where
  | resume
  | finetune
  | fresh
deriving DecidableEq, Repr

/-- main_train.py lines 157-176: path selection. Resume / auto-resume has
priority, then the fine-tune seed, else a fresh run. -/
def recovery_path (opts : Opts) : RecoveryPath :=
  if opts.common_resume.isSome || opts.common_auto_resume then RecoveryPath.resume
  else if opts.common_finetune_imagenet1k.isSome then RecoveryPath.finetune
  else RecoveryPath.fresh

/-- main_train.py lines 157-178: applies the selected recovery path to the
fresh state `init`: a full checkpoint load, a weights-only transplant, or
nothing. -/
def resolve_training_state (opts : Opts) (ckpt : Checkpoint) (init : TrainState) : TrainState :=
  if opts.common_resume.isSome || opts.common_auto_resume then
    load_checkpoint ckpt init.model_ema
  else if opts.common_finetune_imagenet1k.isSome then
    let ms := load_model_state ckpt init.model_ema
    { init with model := ms.1, model_ema := ms.2 }
  else init

/-- A concrete CPU-default configuration (the getattr defaults of
main_worker), used as the base point for concrete evaluations. -/
def opts0 : Opts :=
  { dev_num_gpus := 0
    dev_device_id := none
    dev_device := Device.cpu
    ddp_rank := some 0
    ddp_world_size := -1
    ddp_disable := false
    ddp_no_spawn := false
    ddp_use_distributed := false
    ddp_device_id := none
    ddp_start_rank := 0
    ddp_dist_port := none
    dataset_workers := some (-1)
    dataset_train_batch_size0 := 32
    dataset_val_batch_size0 := 32
    model_normalization_name := "batch_norm"
    scheduler_is_iteration_based := false
    scheduler_max_iterations := none
    scheduler_max_epochs := none
    stats_checkpoint_metric_max := false
    common_resume := none
    common_finetune_imagenet1k := none
    common_auto_resume := false }

/-- A concrete well-formed checkpoint used for concrete evaluations. -/
def ckpt0 : Checkpoint :=
  { model := 7
    optimizer := 5
    gradient_scalar := 3
    epoch := 12
    iteration := 3400
    best_metric := Metric.finite (83 / 100)
    model_ema := some 9 }

/-- The spawn guard only reads num_gpus, ddp.disable, ddp.no_spawn; writing
the resolved ddp.use_distributed flag does not change it. -/
theorem spawn_condition_set_flag (opts : Opts) (b : Bool) (cuda_available : Bool) :
    spawn_condition { opts with ddp_use_distributed := b } cuda_available
      = spawn_condition opts cuda_available := rfl

/-- Field-level characterization of the non-spawn branch resolution. -/
theorem resolve_single_opts_eq (opts : Opts) (n_cpus : Int) :
    resolve_single_opts opts n_cpus =
      { opts with
        dataset_workers :=
          if opts.dataset_workers == some (-1) then some n_cpus else opts.dataset_workers
        model_normalization_name :=
          if opts.model_normalization_name == "sync_batch_norm"
              || opts.model_normalization_name == "sbn"
          then "batch_norm" else opts.model_normalization_name
        dataset_train_batch_size0 := opts.dataset_train_batch_size0 * max 1 opts.dev_num_gpus
        dataset_val_batch_size0 := opts.dataset_val_batch_size0 * max 1 opts.dev_num_gpus
        dev_device_id := none } := by
  unfold resolve_single_opts resolve_single_batch resolve_single_norm resolve_single_workers
  split <;> split <;> rfl

/-- Field-level characterization of the spawn branch resolution. -/
theorem resolve_spawn_opts_eq (opts : Opts) (n_cpus : Int) (free_port : Int) :
    resolve_spawn_opts opts n_cpus free_port =
      { opts with
        dev_device_id := opts.ddp_device_id
        ddp_world_size :=
          if opts.ddp_world_size == -1 then opts.dev_num_gpus else opts.ddp_world_size
        dataset_workers :=
          if opts.dataset_workers == some (-1) || opts.dataset_workers == none
          then some (Int.fdiv n_cpus opts.dev_num_gpus) else opts.dataset_workers
        ddp_rank := none
        ddp_start_rank := opts.ddp_rank.getD 0
        ddp_dist_port := some free_port } := by
  unfold resolve_spawn_opts resolve_spawn_rank resolve_spawn_workers
    resolve_spawn_world_size resolve_spawn_device
  split <;> split <;> rfl

/-- The launch outcome of main_worker, as a case split on the spawn guard. -/
theorem main_worker_outcome (opts : Opts) (n_cpus : Int) (cuda_available : Bool)
    (free_port : Int) :
    (main_worker opts n_cpus cuda_available free_port).outcome =
      if spawn_condition opts cuda_available then
        LaunchOutcome.spawn
          (resolve_spawn_opts
            { opts with ddp_use_distributed :=
                resolve_use_distributed opts.dev_num_gpus opts.ddp_disable }
            n_cpus free_port)
          (opts.ddp_rank.getD 0) opts.dev_num_gpus
      else
        LaunchOutcome.single
          (resolve_single_opts
            { opts with ddp_use_distributed :=
                resolve_use_distributed opts.dev_num_gpus opts.ddp_disable }
            n_cpus) := rfl

/-- When num_gpus ≤ 1 the resolved distributed flag is false. -/
theorem resolve_use_distributed_le_one (num_gpus : Int) (ddp_disable : Bool)
    (h : num_gpus ≤ 1) : resolve_use_distributed num_gpus ddp_disable = false := by
  simp [resolve_use_distributed, h]

/-- C2: for every configuration with num_gpus ≤ 1, the resolved
ddp.use_distributed flag recorded in the launch outcome is false,
regardless of the explicit ddp.disable flag. -/
theorem use_distributed_force_disabled (opts : Opts) (n_cpus : Int)
    (cuda_available : Bool) (free_port : Int) (h : opts.dev_num_gpus ≤ 1) :
    ((main_worker opts n_cpus cuda_available free_port).outcome).opts.ddp_use_distributed
      = false := by
  have hu : resolve_use_distributed opts.dev_num_gpus opts.ddp_disable = false :=
    resolve_use_distributed_le_one _ _ h
  have hs : spawn_condition opts cuda_available = false := by
    simp [spawn_condition, hu]
  rw [main_worker_outcome, hs]
  simp [LaunchOutcome.opts, resolve_single_opts_eq, hu]

/-- C2 witness: a single-GPU run with ddp.disable = false still resolves
use_distributed to false. -/
theorem use_distributed_force_disabled_witness :
    ((main_worker { opts0 with dev_num_gpus := 1, ddp_use_distributed := true }
        8 true 29500).outcome).opts.ddp_use_distributed = false :=
  use_distributed_force_disabled _ 8 true 29500 (by decide)

/-- C3: on the non-spawn path (CPU, single GPU or legacy DataParallel)
both resolved batch sizes equal the configured base times max(1, num_gpus);
on the process-group spawn path both are left at the per-process base. -/
theorem batch_size_scaling (opts : Opts) (n_cpus : Int) (cuda_available : Bool)
    (free_port : Int) :
    (((main_worker opts n_cpus cuda_available free_port).outcome).isSpawn = false →
      ((main_worker opts n_cpus cuda_available free_port).outcome).opts.dataset_train_batch_size0
          = opts.dataset_train_batch_size0 * max 1 opts.dev_num_gpus ∧
      ((main_worker opts n_cpus cuda_available free_port).outcome).opts.dataset_val_batch_size0
          = opts.dataset_val_batch_size0 * max 1 opts.dev_num_gpus) ∧
    (((main_worker opts n_cpus cuda_available free_port).outcome).isSpawn = true →
      ((main_worker opts n_cpus cuda_available free_port).outcome).opts.dataset_train_batch_size0
          = opts.dataset_train_batch_size0 ∧
      ((main_worker opts n_cpus cuda_available free_port).outcome).opts.dataset_val_batch_size0
          = opts.dataset_val_batch_size0) := by
  rw [main_worker_outcome]
  by_cases h : spawn_condition opts cuda_available = true
  · rw [if_pos h]
    constructor
    · intro hf
      simp [LaunchOutcome.isSpawn] at hf
    · intro _
      simp [LaunchOutcome.opts, resolve_spawn_opts_eq]
  · rw [if_neg h]
    constructor
    · intro _
      simp [LaunchOutcome.opts, resolve_single_opts_eq]
    · intro hf
      simp [LaunchOutcome.isSpawn] at hf

/-- C3 witness: with 3 GPUs and no accelerator runtime (legacy
DataParallel path) batch size 32 becomes 96; with 4 GPUs on the spawn path
it stays 32. -/
theorem batch_size_scaling_witness :
    (((main_worker { opts0 with dev_num_gpus := 3 } 8 false 29500).outcome).opts.dataset_train_batch_size0
        = 32 * max 1 (3 : Int) ∧
      ((main_worker { opts0 with dev_num_gpus := 3 } 8 false 29500).outcome).opts.dataset_val_batch_size0
        = 32 * max 1 (3 : Int)) ∧
    (((main_worker { opts0 with dev_num_gpus := 4 } 8 true 29500).outcome).opts.dataset_train_batch_size0
        = 32 ∧
      ((main_worker { opts0 with dev_num_gpus := 4 } 8 true 29500).outcome).opts.dataset_val_batch_size0
        = 32) :=
  ⟨(batch_size_scaling { opts0 with dev_num_gpus := 3 } 8 false 29500).1 (by decide),
   (batch_size_scaling { opts0 with dev_num_gpus := 4 } 8 true 29500).2 (by decide)⟩

/-- C8: on the non-spawn path a requested synchronized batch-normalization
variant ("sync_batch_norm" or "sbn") is silently replaced by "batch_norm";
on the spawn path the requested normalization name is left unchanged. -/
theorem sync_batch_norm_downgrade (opts : Opts) (n_cpus : Int) (cuda_available : Bool)
    (free_port : Int) :
    (((main_worker opts n_cpus cuda_available free_port).outcome).isSpawn = false →
      (opts.model_normalization_name = "sync_batch_norm" ∨
          opts.model_normalization_name = "sbn") →
      ((main_worker opts n_cpus cuda_available free_port).outcome).opts.model_normalization_name
        = "batch_norm") ∧
    (((main_worker opts n_cpus cuda_available free_port).outcome).isSpawn = true →
      ((main_worker opts n_cpus cuda_available free_port).outcome).opts.model_normalization_name
        = opts.model_normalization_name) := by
  rw [main_worker_outcome]
  by_cases h : spawn_condition opts cuda_available = true
  · rw [if_pos h]
    constructor
    · intro hf
      simp [LaunchOutcome.isSpawn] at hf
    · intro _
      simp [LaunchOutcome.opts, resolve_spawn_opts_eq]
  · rw [if_neg h]
    constructor
    · intro _ hn
      rcases hn with hn | hn <;>
        simp [LaunchOutcome.opts, resolve_single_opts_eq, hn]
    · intro hf
      simp [LaunchOutcome.isSpawn] at hf

/-- C8 witness: "sync_batch_norm" with one GPU resolves to "batch_norm";
"sbn" on the 4-GPU spawn path stays "sbn". -/
theorem sync_batch_norm_downgrade_witness :
    ((main_worker { opts0 with dev_num_gpus := 1, model_normalization_name := "sync_batch_norm" } 8 true 29500).outcome).opts.model_normalization_name
      = "batch_norm" ∧
    ((main_worker { opts0 with dev_num_gpus := 4, model_normalization_name := "sbn" } 8 true 29500).outcome).opts.model_normalization_name
      = "sbn" :=
  ⟨(sync_batch_norm_downgrade { opts0 with dev_num_gpus := 1, model_normalization_name := "sync_batch_norm" } 8 true 29500).1
      (by decide) (Or.inl rfl),
   (sync_batch_norm_downgrade { opts0 with dev_num_gpus := 4, model_normalization_name := "sbn" } 8 true 29500).2 (by decide)⟩

/-- C7 counterexample: a CPU run (non-spawn path) whose dataset.workers is
None keeps None instead of being resolved to the CPU count (8), so the
claim that an unset (None) worker count resolves to CPU_count without
spawning is false on the code. -/
theorem workers_none_unresolved_counterexample :
    ((main_worker { opts0 with dataset_workers := none } 8 false 29500).outcome).opts.dataset_workers
      = none ∧
    ((main_worker { opts0 with dataset_workers := none } 8 false 29500).outcome).opts.dataset_workers
      ≠ some 8 := by
  constructor <;> decide

/-- C7 amended: on the spawn path a worker count of None or -1 resolves to
CPU_count // num_gpus (floor division); on the non-spawn path only the
sentinel -1 resolves to CPU_count while None is left unchanged; an
explicitly set non-sentinel value is unchanged on both paths. -/
theorem workers_resolution (opts : Opts) (n_cpus : Int) (cuda_available : Bool)
    (free_port : Int) :
    (((main_worker opts n_cpus cuda_available free_port).outcome).isSpawn = true →
      ((main_worker opts n_cpus cuda_available free_port).outcome).opts.dataset_workers
        = if opts.dataset_workers = some (-1) ∨ opts.dataset_workers = none
          then some (Int.fdiv n_cpus opts.dev_num_gpus)
          else opts.dataset_workers) ∧
    (((main_worker opts n_cpus cuda_available free_port).outcome).isSpawn = false →
      ((main_worker opts n_cpus cuda_available free_port).outcome).opts.dataset_workers
        = if opts.dataset_workers = some (-1)
          then some n_cpus
          else opts.dataset_workers) := by
  rw [main_worker_outcome]
  by_cases h : spawn_condition opts cuda_available = true
  · rw [if_pos h]
    constructor
    · intro _
      simp [LaunchOutcome.opts, resolve_spawn_opts_eq]
    · intro hf
      simp [LaunchOutcome.isSpawn] at hf
  · rw [if_neg h]
    constructor
    · intro hf
      simp [LaunchOutcome.isSpawn] at hf
    · intro _
      simp [LaunchOutcome.opts, resolve_single_opts_eq]

/-- C7 amended witness: None on the 4-GPU spawn path becomes 8 // 4 = 2;
the sentinel -1 on the CPU path becomes 8. -/
theorem workers_resolution_witness :
    ((main_worker { opts0 with dev_num_gpus := 4, dataset_workers := none }
        8 true 29500).outcome).opts.dataset_workers = some 2 ∧
    ((main_worker opts0 8 false 29500).outcome).opts.dataset_workers = some 8 := by
  constructor
  · have h := (workers_resolution { opts0 with dev_num_gpus := 4, dataset_workers := none }
      8 true 29500).1 (by decide)
    simpa using h
  · have h := (workers_resolution opts0 8 false 29500).2 (by decide)
    simpa using h

/-- C9: a configured rank < 0 is logged as an error but does not abort:
main_worker is total and still selects a launch outcome, and on the spawn
path resolution continues with the invalid value as start_rank. -/
theorem negative_rank_logged_not_fatal (opts : Opts) (n_cpus : Int)
    (cuda_available : Bool) (free_port : Int) (r : Int)
    (hr : opts.ddp_rank = some r) (hneg : r < 0) :
    (main_worker opts n_cpus cuda_available free_port).rank_error_logged = true ∧
    (((main_worker opts n_cpus cuda_available free_port).outcome).isSpawn = true →
      (main_worker opts n_cpus cuda_available free_port).outcome
        = LaunchOutcome.spawn
            (resolve_spawn_opts
              { opts with ddp_use_distributed :=
                  resolve_use_distributed opts.dev_num_gpus opts.ddp_disable }
              n_cpus free_port)
            r opts.dev_num_gpus) := by
  constructor
  · show decide (opts.ddp_rank.getD 0 < 0) = true
    rw [hr]
    simpa using hneg
  · intro hsp
    rw [main_worker_outcome] at hsp ⊢
    by_cases h : spawn_condition opts cuda_available = true
    · rw [if_pos h]
      rw [hr]
      rfl
    · rw [if_neg h] at hsp
      simp [LaunchOutcome.isSpawn] at hsp

/-- C9 witness: rank -3 with 4 GPUs on the spawn path: the error is
logged and the spawn still happens with start_rank = -3. -/
theorem negative_rank_logged_not_fatal_witness :
    (main_worker { opts0 with dev_num_gpus := 4, ddp_rank := some (-3) } 8 true 29500).rank_error_logged = true ∧
    (main_worker { opts0 with dev_num_gpus := 4, ddp_rank := some (-3) } 8 true 29500).outcome
      = LaunchOutcome.spawn
          (resolve_spawn_opts { opts0 with dev_num_gpus := 4, ddp_rank := some (-3), ddp_use_distributed := true } 8 29500)
          (-3) 4 := by
  have h := negative_rank_logged_not_fatal
    { opts0 with dev_num_gpus := 4, ddp_rank := some (-3) } 8 true 29500 (-3) rfl (by decide)
  exact ⟨h.1, h.2 (by decide)⟩

/-- C1: on the spawn path (num_gpus > 1, distributed not disabled,
spawning enabled, accelerator runtime available) main_worker spawns
exactly num_gpus workers; worker i records dev.device_id = i and, the
parent having reset ddp.rank to None, locally computes
rank = start_rank + i, so the locally computed ranks are exactly the
contiguous range [start_rank, start_rank + num_gpus). -/
theorem spawned_ranks_contiguous (opts : Opts) (n_cpus : Int) (free_port : Int)
    (hg : 1 < opts.dev_num_gpus) (hd : opts.ddp_disable = false)
    (hs : opts.ddp_no_spawn = false) :
    ∃ o : Opts,
      (main_worker opts n_cpus true free_port).outcome
        = LaunchOutcome.spawn o (opts.ddp_rank.getD 0) opts.dev_num_gpus ∧
      (spawn_workers_bind opts.dev_num_gpus.toNat o (some (opts.ddp_rank.getD 0))).length
        = opts.dev_num_gpus.toNat ∧
      (spawn_workers_bind opts.dev_num_gpus.toNat o (some (opts.ddp_rank.getD 0))).map Opts.dev_device_id
        = (List.range opts.dev_num_gpus.toNat).map (fun i => some (Int.ofNat i)) ∧
      (spawn_workers_bind opts.dev_num_gpus.toNat o (some (opts.ddp_rank.getD 0))).map Opts.ddp_rank
        = (List.range opts.dev_num_gpus.toNat).map
            (fun i => some (opts.ddp_rank.getD 0 + Int.ofNat i)) := by
  have hle : ¬ opts.dev_num_gpus ≤ 1 := not_le.mpr hg
  have hcond : spawn_condition opts true = true := by
    simp [spawn_condition, resolve_use_distributed, hd, hs, hle]
  refine ⟨resolve_spawn_opts
      { opts with ddp_use_distributed :=
          resolve_use_distributed opts.dev_num_gpus opts.ddp_disable }
      n_cpus free_port, ?_, ?_, ?_, ?_⟩
  · rw [main_worker_outcome, if_pos hcond]
  · simp [spawn_workers_bind]
  · have ho : (resolve_spawn_opts
        { opts with ddp_use_distributed :=
            resolve_use_distributed opts.dev_num_gpus opts.ddp_disable }
        n_cpus free_port).ddp_rank = none := by
      rw [resolve_spawn_opts_eq]
    simp only [spawn_workers_bind, List.map_map, List.map_inj_left]
    intro i _
    simp [Function.comp, distributed_worker_bind, ho]
  · have ho : (resolve_spawn_opts
        { opts with ddp_use_distributed :=
            resolve_use_distributed opts.dev_num_gpus opts.ddp_disable }
        n_cpus free_port).ddp_rank = none := by
      rw [resolve_spawn_opts_eq]
    simp only [spawn_workers_bind, List.map_map, List.map_inj_left]
    intro i _
    simp [Function.comp, distributed_worker_bind, ho]

/-- C1 witness: 3 GPUs with pre-existing rank 5: three workers with
device ids 0,1,2 and locally computed ranks 5,6,7. -/
theorem spawned_ranks_contiguous_witness :
    ∃ o : Opts,
      (main_worker { opts0 with dev_num_gpus := 3, ddp_rank := some 5 } 8 true 29500).outcome
        = LaunchOutcome.spawn o 5 3 ∧
      (spawn_workers_bind 3 o (some 5)).length = 3 ∧
      (spawn_workers_bind 3 o (some 5)).map Opts.dev_device_id
        = (List.range 3).map (fun i => some (Int.ofNat i)) ∧
      (spawn_workers_bind 3 o (some 5)).map Opts.ddp_rank
        = (List.range 3).map (fun i => some (5 + Int.ofNat i)) :=
  spawned_ranks_contiguous { opts0 with dev_num_gpus := 3, ddp_rank := some 5 }
    8 29500 (by decide) rfl rfl

/-- C10: before spawning, the parent records the existing rank as
start_rank (passed through kwargs and stored in ddp.start_rank) and
resets ddp.rank to None; every spawned worker therefore takes the
no-pre-assigned-rank branch and computes start_rank + i locally, and its
final ddp.rank is the node-level rank returned by the rendezvous call
(distributed_init, not under src/, abstracted as dinit). -/
theorem parent_rank_reset_rendezvous (opts : Opts) (n_cpus : Int) (free_port : Int)
    (dinit : Opts → Int)
    (hg : 1 < opts.dev_num_gpus) (hd : opts.ddp_disable = false)
    (hs : opts.ddp_no_spawn = false) :
    ∃ o : Opts,
      (main_worker opts n_cpus true free_port).outcome
        = LaunchOutcome.spawn o (opts.ddp_rank.getD 0) opts.dev_num_gpus ∧
      o.ddp_rank = none ∧
      o.ddp_start_rank = opts.ddp_rank.getD 0 ∧
      ∀ i : Int,
        (distributed_worker_bind i o (some (opts.ddp_rank.getD 0))).ddp_rank
          = some (opts.ddp_rank.getD 0 + i) ∧
        (distributed_worker i o (some (opts.ddp_rank.getD 0)) dinit).ddp_rank
          = some (dinit (distributed_worker_bind i o (some (opts.ddp_rank.getD 0)))) := by
  have hle : ¬ opts.dev_num_gpus ≤ 1 := not_le.mpr hg
  have hcond : spawn_condition opts true = true := by
    simp [spawn_condition, resolve_use_distributed, hd, hs, hle]
  refine ⟨resolve_spawn_opts
      { opts with ddp_use_distributed :=
          resolve_use_distributed opts.dev_num_gpus opts.ddp_disable }
      n_cpus free_port, ?_, ?_, ?_, ?_⟩
  · rw [main_worker_outcome, if_pos hcond]
  · rw [resolve_spawn_opts_eq]
  · rw [resolve_spawn_opts_eq]
  · have ho : (resolve_spawn_opts
        { opts with ddp_use_distributed :=
            resolve_use_distributed opts.dev_num_gpus opts.ddp_disable }
        n_cpus free_port).ddp_rank = none := by
      rw [resolve_spawn_opts_eq]
    intro i
    constructor
    · simp [distributed_worker_bind, ho]
    · simp [distributed_worker]

/-- C10 witness: 3 GPUs, pre-existing rank 5, rendezvous returning 11:
the spawn configuration has rank None and start_rank 5; worker 2 locally
computes 5 + 2 and ends with the rendezvous rank 11. -/
theorem parent_rank_reset_rendezvous_witness :
    ∃ o : Opts,
      (main_worker { opts0 with dev_num_gpus := 3, ddp_rank := some 5 } 8 true 29500).outcome
        = LaunchOutcome.spawn o 5 3 ∧
      o.ddp_rank = none ∧
      o.ddp_start_rank = 5 ∧
      (distributed_worker_bind 2 o (some 5)).ddp_rank = some (5 + 2) ∧
      (distributed_worker 2 o (some 5) (fun _ => 11)).ddp_rank = some 11 := by
  obtain ⟨o, h1, h2, h3, h4⟩ := parent_rank_reset_rendezvous
    { opts0 with dev_num_gpus := 3, ddp_rank := some 5 } 8 29500 (fun _ => 11)
    (by decide) rfl rfl
  exact ⟨o, h1, h2, h3, (h4 2).1, (h4 2).2⟩

/-- A resolved horizon bound is positive whenever its default is. -/
theorem horizon_bound_pos (b : Option Int) (d : Int) (hd : 0 < d) :
    0 < horizon_bound b d := by
  cases b with
  | none => simpa [horizon_bound] using hd
  | some v =>
    by_cases hv : v ≤ 0
    · simpa [horizon_bound, hv] using hd
    · simp only [horizon_bound, if_neg hv]
      omega

/-- C5: resolve_horizon makes exactly one of max_epochs / max_iterations
the operative bound, chosen by the iteration-based flag; the other
dimension gets its large sentinel default, and the operative bound is the
requested value when positive and the documented default when missing or
≤ 0 (hence always positive). -/
theorem horizon_exactly_one_operative (opts : Opts) :
    (opts.scheduler_is_iteration_based = true →
      (resolve_horizon opts).scheduler_max_epochs = some DEFAULT_MAX_EPOCHS ∧
      (resolve_horizon opts).scheduler_max_iterations
        = some (horizon_bound opts.scheduler_max_iterations DEFAULT_ITERATIONS) ∧
      0 < horizon_bound opts.scheduler_max_iterations DEFAULT_ITERATIONS) ∧
    (opts.scheduler_is_iteration_based = false →
      (resolve_horizon opts).scheduler_max_iterations = some DEFAULT_MAX_ITERATIONS ∧
      (resolve_horizon opts).scheduler_max_epochs
        = some (horizon_bound opts.scheduler_max_epochs DEFAULT_EPOCHS) ∧
      0 < horizon_bound opts.scheduler_max_epochs DEFAULT_EPOCHS) := by
  constructor
  · intro h
    exact ⟨by simp [resolve_horizon, h], by simp [resolve_horizon, h],
      horizon_bound_pos _ _ (by decide)⟩
  · intro h
    exact ⟨by simp [resolve_horizon, h], by simp [resolve_horizon, h],
      horizon_bound_pos _ _ (by decide)⟩

/-- C5 witness: iteration-based mode with a requested bound of -5: the
default 300000 iterations is substituted and max_epochs gets the sentinel. -/
theorem horizon_exactly_one_operative_witness :
    (resolve_horizon { opts0 with scheduler_is_iteration_based := true, scheduler_max_iterations := some (-5) }).scheduler_max_epochs
      = some DEFAULT_MAX_EPOCHS ∧
    (resolve_horizon { opts0 with scheduler_is_iteration_based := true, scheduler_max_iterations := some (-5) }).scheduler_max_iterations
      = some DEFAULT_ITERATIONS ∧
    (0 : Int) < DEFAULT_ITERATIONS := by
  have h := (horizon_exactly_one_operative
    { opts0 with scheduler_is_iteration_based := true, scheduler_max_iterations := some (-5) }).1 rfl
  exact ⟨h.1, h.2.1, h.2.2⟩

/-- C6: before any checkpoint is read the fresh training state's
best_metric is 0.0 exactly when the run maximizes its checkpoint metric
and +infinity when it minimizes (the default); this polarity comes from
the configuration once, survives the non-resume recovery paths, and is
only replaced by the checkpoint's stored value on the resume path. -/
theorem best_metric_polarity (opts : Opts) (ckpt : Checkpoint)
    (model : ModelState) (optimizer : OptimState) (gradient_scalar : ScalerState)
    (model_ema : Option ModelState) :
    (fresh_train_state opts model optimizer gradient_scalar model_ema).best_metric
      = (if opts.stats_checkpoint_metric_max then Metric.finite 0 else Metric.posInf) ∧
    (recovery_path opts ≠ RecoveryPath.resume →
      (resolve_training_state opts ckpt
          (fresh_train_state opts model optimizer gradient_scalar model_ema)).best_metric
        = (fresh_train_state opts model optimizer gradient_scalar model_ema).best_metric) ∧
    (recovery_path opts = RecoveryPath.resume →
      (resolve_training_state opts ckpt
          (fresh_train_state opts model optimizer gradient_scalar model_ema)).best_metric
        = ckpt.best_metric) := by
  refine ⟨rfl, ?_, ?_⟩
  · intro hne
    by_cases hc : (opts.common_resume.isSome || opts.common_auto_resume) = true
    · exact absurd (by simp [recovery_path, hc]) hne
    · by_cases hf : opts.common_finetune_imagenet1k.isSome = true
      · simp [resolve_training_state, hc, hf, load_model_state]
      · simp [resolve_training_state, hc, hf]
  · intro he
    by_cases hc : (opts.common_resume.isSome || opts.common_auto_resume) = true
    · simp [resolve_training_state, hc, load_checkpoint]
    · by_cases hf : opts.common_finetune_imagenet1k.isSome = true
      · simp [recovery_path, hc, hf] at he
      · simp [recovery_path, hc, hf] at he

/-- C6 witness: maximize polarity with a resume path: best_metric is 0.0
before the checkpoint is read and 0.83 after the checkpoint load. -/
theorem best_metric_polarity_witness :
    (fresh_train_state { opts0 with stats_checkpoint_metric_max := true, common_resume := some ("ckpt") } 1 2 3 none).best_metric
      = Metric.finite 0 ∧
    (resolve_training_state { opts0 with stats_checkpoint_metric_max := true, common_resume := some ("ckpt") } ckpt0
        (fresh_train_state { opts0 with stats_checkpoint_metric_max := true, common_resume := some ("ckpt") } 1 2 3 none)).best_metric
      = Metric.finite (83 / 100) := by
  have h := best_metric_polarity
    { opts0 with stats_checkpoint_metric_max := true, common_resume := some ("ckpt") }
    ckpt0 1 2 3 none
  exact ⟨h.1, h.2.2 (by decide)⟩

/-- C4: exactly one of three mutually exclusive recovery paths executes,
chosen in priority order; the resume path restores all seven state fields
from the checkpoint, the fine-tune path transplants only model (and EMA)
weights while counters and best_metric keep their fresh-run defaults, and
the fresh path keeps all constructor defaults. -/
theorem recovery_paths_exclusive (opts : Opts) (ckpt : Checkpoint)
    (model : ModelState) (optimizer : OptimState) (gradient_scalar : ScalerState)
    (model_ema : Option ModelState) :
    (recovery_path opts = RecoveryPath.resume ↔
      (opts.common_resume.isSome || opts.common_auto_resume) = true) ∧
    (recovery_path opts = RecoveryPath.finetune ↔
      (opts.common_resume.isSome || opts.common_auto_resume) = false ∧
        opts.common_finetune_imagenet1k.isSome = true) ∧
    (recovery_path opts = RecoveryPath.fresh ↔
      (opts.common_resume.isSome || opts.common_auto_resume) = false ∧
        opts.common_finetune_imagenet1k.isSome = false) ∧
    ((recovery_path opts = RecoveryPath.resume →
      (resolve_training_state opts ckpt
          (fresh_train_state opts model optimizer gradient_scalar model_ema)).model = ckpt.model ∧
      (resolve_training_state opts ckpt
          (fresh_train_state opts model optimizer gradient_scalar model_ema)).optimizer = ckpt.optimizer ∧
      (resolve_training_state opts ckpt
          (fresh_train_state opts model optimizer gradient_scalar model_ema)).gradient_scalar = ckpt.gradient_scalar ∧
      (resolve_training_state opts ckpt
          (fresh_train_state opts model optimizer gradient_scalar model_ema)).start_epoch = ckpt.epoch ∧
      (resolve_training_state opts ckpt
          (fresh_train_state opts model optimizer gradient_scalar model_ema)).start_iteration = ckpt.iteration ∧
      (resolve_training_state opts ckpt
          (fresh_train_state opts model optimizer gradient_scalar model_ema)).best_metric = ckpt.best_metric ∧
      (resolve_training_state opts ckpt
          (fresh_train_state opts model optimizer gradient_scalar model_ema)).model_ema
        = (if model_ema.isSome then ckpt.model_ema else none)) ∧
    (recovery_path opts = RecoveryPath.finetune →
      (resolve_training_state opts ckpt
          (fresh_train_state opts model optimizer gradient_scalar model_ema)).model = ckpt.model ∧
      (resolve_training_state opts ckpt
          (fresh_train_state opts model optimizer gradient_scalar model_ema)).model_ema
        = (if model_ema.isSome then ckpt.model_ema else none) ∧
      (resolve_training_state opts ckpt
          (fresh_train_state opts model optimizer gradient_scalar model_ema)).optimizer = optimizer ∧
      (resolve_training_state opts ckpt
          (fresh_train_state opts model optimizer gradient_scalar model_ema)).gradient_scalar = gradient_scalar ∧
      (resolve_training_state opts ckpt
          (fresh_train_state opts model optimizer gradient_scalar model_ema)).start_epoch = 0 ∧
      (resolve_training_state opts ckpt
          (fresh_train_state opts model optimizer gradient_scalar model_ema)).start_iteration = 0 ∧
      (resolve_training_state opts ckpt
          (fresh_train_state opts model optimizer gradient_scalar model_ema)).best_metric
        = best_metric_init opts.stats_checkpoint_metric_max) ∧
    (recovery_path opts = RecoveryPath.fresh →
      resolve_training_state opts ckpt
          (fresh_train_state opts model optimizer gradient_scalar model_ema)
        = fresh_train_state opts model optimizer gradient_scalar model_ema)) := by
  by_cases hc : (opts.common_resume.isSome || opts.common_auto_resume) = true
  · refine ⟨?_, ?_, ?_, ?_, ?_, ?_⟩
    · simp [recovery_path, hc]
    · simp [recovery_path, hc]
    · simp [recovery_path, hc]
    · intro _
      simp [resolve_training_state, hc, load_checkpoint, fresh_train_state]
    · intro he
      simp [recovery_path, hc] at he
    · intro he
      simp [recovery_path, hc] at he
  · by_cases hf : opts.common_finetune_imagenet1k.isSome = true
    · refine ⟨?_, ?_, ?_, ?_, ?_, ?_⟩
      · simp [recovery_path, hc, hf]
      · simp [recovery_path, hc, hf, eq_false_of_ne_true hc]
      · simp [recovery_path, hc, hf]
      · intro he
        simp [recovery_path, hc, hf] at he
      · intro _
        simp [resolve_training_state, hc, hf, load_model_state, fresh_train_state]
      · intro he
        simp [recovery_path, hc, hf] at he
    · refine ⟨?_, ?_, ?_, ?_, ?_, ?_⟩
      · simp [recovery_path, hc, hf]
      · simp [recovery_path, hc, hf]
      · simp [recovery_path, hc, hf, eq_false_of_ne_true hc, eq_false_of_ne_true hf]
      · intro he
        simp [recovery_path, hc, hf] at he
      · intro he
        simp [recovery_path, hc, hf] at he
      · intro _
        simp [resolve_training_state, hc, hf]

/-- C4 witness: fine-tune seed set (no resume), EMA enabled: the path is
finetune, model and EMA weights come from the seed, and optimizer,
scaler, counters and best_metric keep their fresh defaults. -/
theorem recovery_paths_exclusive_witness :
    recovery_path { opts0 with common_finetune_imagenet1k := some ("seed") } = RecoveryPath.finetune ∧
    (resolve_training_state { opts0 with common_finetune_imagenet1k := some ("seed") } ckpt0
        (fresh_train_state { opts0 with common_finetune_imagenet1k := some ("seed") } 1 2 3 (some 4))).model = 7 ∧
    (resolve_training_state { opts0 with common_finetune_imagenet1k := some ("seed") } ckpt0
        (fresh_train_state { opts0 with common_finetune_imagenet1k := some ("seed") } 1 2 3 (some 4))).model_ema = some 9 ∧
    (resolve_training_state { opts0 with common_finetune_imagenet1k := some ("seed") } ckpt0
        (fresh_train_state { opts0 with common_finetune_imagenet1k := some ("seed") } 1 2 3 (some 4))).optimizer = 2 ∧
    (resolve_training_state { opts0 with common_finetune_imagenet1k := some ("seed") } ckpt0
        (fresh_train_state { opts0 with common_finetune_imagenet1k := some ("seed") } 1 2 3 (some 4))).gradient_scalar = 3 ∧
    (resolve_training_state { opts0 with common_finetune_imagenet1k := some ("seed") } ckpt0
        (fresh_train_state { opts0 with common_finetune_imagenet1k := some ("seed") } 1 2 3 (some 4))).start_epoch = 0 ∧
    (resolve_training_state { opts0 with common_finetune_imagenet1k := some ("seed") } ckpt0
        (fresh_train_state { opts0 with common_finetune_imagenet1k := some ("seed") } 1 2 3 (some 4))).start_iteration = 0 ∧
    (resolve_training_state { opts0 with common_finetune_imagenet1k := some ("seed") } ckpt0
        (fresh_train_state { opts0 with common_finetune_imagenet1k := some ("seed") } 1 2 3 (some 4))).best_metric = Metric.posInf := by
  have h := recovery_paths_exclusive
    { opts0 with common_finetune_imagenet1k := some ("seed") } ckpt0 1 2 3 (some 4)
  have hp : recovery_path { opts0 with common_finetune_imagenet1k := some ("seed") }
      = RecoveryPath.finetune := by decide
  have hft := h.2.2.2.2.1 hp
  exact ⟨hp, hft.1, hft.2.1, hft.2.2.1, hft.2.2.2.1, hft.2.2.2.2.1,
    hft.2.2.2.2.2.1, hft.2.2.2.2.2.2⟩

end MainTrain
